import Mathlib

/-!
Shallow embedding of `pipelines/hmda/pipeline.py`, the SageMaker pipeline
builder for the HMDA workflow.

SDK configuration objects are modelled as Lean structures whose fields mirror
the keyword arguments the source passes.  Values that only exist at remote
execution time (step properties, execution variables, `Join` expressions) are
modelled symbolically by the inductive `SVal`.  The behaviour of the external
platform (default-bucket resolution, execution-role lookup, the project tag
registry) is an explicit environment passed to the builder.
-/

namespace HMDA

/-- A named, typed, externally overridable pipeline parameter
(`ParameterInteger` / `ParameterString` / `ParameterBoolean`). -/
inductive Parameter
  | int (name : String) (default_value : Int)
  | str (name : String) (default_value : String)
  | bool (name : String) (default_value : Bool)
deriving DecidableEq

/-- The declared name of a parameter. -/
def Parameter.name : Parameter → String
  | .int n _ => n
  | .str n _ => n
  | .bool n _ => n

/-- A symbolic reference to a property of a named step, resolved lazily by the
orchestration service (`step.properties....`). -/
inductive PropRef
  | processingOutput (step_name : String) (output_name : String)
  | calculatedBaselineStatistics (step_name : String)
  | calculatedBaselineConstraints (step_name : String)
  | baselineUsedForDriftCheckStatistics (step_name : String)
  | baselineUsedForDriftCheckConstraints (step_name : String)
  | modelName (step_name : String)
  | transformOutputS3OutputPath (step_name : String)
deriving DecidableEq

/-- The step a property reference points at. -/
def PropRef.stepName : PropRef → String
  | .processingOutput s _ => s
  | .calculatedBaselineStatistics s => s
  | .calculatedBaselineConstraints s => s
  | .baselineUsedForDriftCheckStatistics s => s
  | .baselineUsedForDriftCheckConstraints s => s
  | .modelName s => s
  | .transformOutputS3OutputPath s => s

/-- One element of a `Join(...)` value list; in this pipeline the joined parts
are always string literals or execution variables. -/
inductive JoinPart
  | lit (s : String)
  | execVar (name : String)
deriving DecidableEq

/-- A string-valued expression appearing in the pipeline definition: a build
time literal, a reference to a declared pipeline parameter, a symbolic step
property, a `Join` expression, or the analysis-config file URI that a Clarify
check config exposes as `monitoring_analysis_config_uri`. -/
inductive SVal
  | lit (s : String)
  | paramRef (p : Parameter)
  | propRef (r : PropRef)
  | join (on_delim : String) (values : List JoinPart)
  | monitoringAnalysisConfigUri (s3_analysis_config_output_path : String)
deriving DecidableEq

/-- The step (if any) that a string-valued expression references through a
step property. -/
def SVal.refStep : SVal → Option String
  | .propRef r => some r.stepName
  | _ => none

/-- An AWS resource tag (key/value pair). -/
def Tag := String × String
deriving instance DecidableEq for Tag

/-- External platform behaviour that the builder consults: the bucket the
session generates when none is supplied, and the execution role resolved from
the execution environment; `base_dir` models `os.path.dirname(__file__)`. -/
structure Env where
  platformDefaultBucket : String
  executionRole : String
  base_dir : String
deriving DecidableEq

/-- The resolved build context: the arguments of `get_pipeline` after the
role and bucket have been resolved against the session. -/
structure Ctx where
  role : String
  default_bucket : String
  model_package_group_name : String
  pipeline_name : String
  base_job_pfx : String
  processing_instance_type : String
  training_instance_type : String
  base_dir : String
deriving DecidableEq

/-- An entry of the pipeline's `parameters=[...]` list.  The source list mixes
declared `Parameter` objects with the two plain instance-type strings. -/
inductive PipelineParam
  | param (p : Parameter)
  | raw (s : String)
deriving DecidableEq

/-- `sagemaker.session.Session(...).default_bucket()`: the supplied bucket if
one was given, otherwise the platform-generated default bucket. -/
def Session.default_bucket (env : Env) (default_bucket : Option String) : String :=
  default_bucket.getD env.platformDefaultBucket

/-- `sagemaker.session.get_execution_role(session)`. -/
def get_execution_role (env : Env) : String :=
  env.executionRole

/-! ### Processing steps -/

/-- `sagemaker.processing.ProcessingOutput(output_name=..., source=...)`. -/
structure ProcessingOutput where
  output_name : String
  source : String
deriving DecidableEq

/-- `sagemaker.processing.ProcessingInput(source=..., destination=...)`. -/
structure ProcessingInput where
  source : SVal
  destination : String
deriving DecidableEq

/-- `SKLearnProcessor(...)`: the scripted-processing job configuration. -/
structure SKLearnProcessor where
  framework_version : String
  instance_type : String
  instance_count : Parameter
  base_job_name : String
  role : String
deriving DecidableEq

/-- The arguments of a `sklearn_processor.run(...)` call. -/
structure ProcessorRunArgs where
  processor : SKLearnProcessor
  inputs : List ProcessingInput
  outputs : List ProcessingOutput
  code : String
  arguments : List SVal
deriving DecidableEq

/-- `sagemaker.workflow.properties.PropertyFile`. -/
structure PropertyFile where
  name : String
  output_name : String
  path : String
deriving DecidableEq

/-- `sagemaker.workflow.steps.ProcessingStep`. -/
structure ProcessingStep where
  name : String
  step_args : ProcessorRunArgs
  property_files : List PropertyFile
deriving DecidableEq

/-! ### Quality check steps -/

/-- `CheckJobConfig(...)`: the shared check-job configuration. -/
structure CheckJobConfig where
  role : String
  instance_count : Nat
  instance_type : String
  volume_size_in_gb : Nat
deriving DecidableEq

/-- `DatasetFormat.csv(header=..., output_columns_position=...)`. -/
structure DatasetFormatCsv where
  header : Bool
  output_columns_position : Option String
deriving DecidableEq

/-- `DataQualityCheckConfig(...)`. -/
structure DataQualityCheckConfig where
  baseline_dataset : SVal
  dataset_format : DatasetFormatCsv
  output_s3_uri : SVal
deriving DecidableEq

/-- `ModelQualityCheckConfig(...)`. -/
structure ModelQualityCheckConfig where
  baseline_dataset : SVal
  dataset_format : DatasetFormatCsv
  output_s3_uri : SVal
  problem_type : String
  inference_attribute : String
  ground_truth_attribute : String
deriving DecidableEq

/-- The `quality_check_config` argument of a `QualityCheckStep`. -/
inductive QualityCheckConfig
  | data (c : DataQualityCheckConfig)
  | model (c : ModelQualityCheckConfig)
deriving DecidableEq

/-- `sagemaker.workflow.quality_check_step.QualityCheckStep`. -/
structure QualityCheckStep where
  name : String
  skip_check : Parameter
  register_new_baseline : Parameter
  quality_check_config : QualityCheckConfig
  check_job_config : CheckJobConfig
  supplied_baseline_statistics : Parameter
  supplied_baseline_constraints : Parameter
  model_package_group_name : String
deriving DecidableEq

/-! ### Clarify check steps -/

/-- `sagemaker.clarify.DataConfig(...)`. -/
structure DataConfig where
  s3_data_input_path : SVal
  s3_output_path : SVal
  s3_analysis_config_output_path : String
  label : String
  headers : List String
  dataset_type : String
deriving DecidableEq

/-- `sagemaker.clarify.BiasConfig(...)`. -/
structure BiasConfig where
  label_values_or_threshold : List Int
  facet_name : List String
deriving DecidableEq

/-- `sagemaker.clarify.ModelConfig(...)`. -/
structure ModelConfig where
  model_name : SVal
  instance_count : Nat
  instance_type : String
deriving DecidableEq

/-- `ModelPredictedLabelConfig()` with all-default arguments. -/
structure ModelPredictedLabelConfig where
deriving DecidableEq

/-- `SHAPConfig(seed=..., num_samples=..., num_clusters=...)`. -/
structure SHAPConfig where
  seed : Nat
  num_samples : Nat
  num_clusters : Nat
deriving DecidableEq

/-- `DataBiasCheckConfig(...)`. -/
structure DataBiasCheckConfig where
  data_config : DataConfig
  data_bias_config : BiasConfig
deriving DecidableEq

/-- `ModelBiasCheckConfig(...)`. -/
structure ModelBiasCheckConfig where
  data_config : DataConfig
  data_bias_config : BiasConfig
  model_config : ModelConfig
  model_predicted_label_config : ModelPredictedLabelConfig
deriving DecidableEq

/-- `ModelExplainabilityCheckConfig(...)`. -/
structure ModelExplainabilityCheckConfig where
  data_config : DataConfig
  model_config : ModelConfig
  explainability_config : SHAPConfig
deriving DecidableEq

/-- The analysis-config file URI a `ModelBiasCheckConfig` exposes; the SDK
derives it from the config's `s3_analysis_config_output_path`.  Modelled
symbolically since the SDK is external to this repository. -/
def ModelBiasCheckConfig.monitoring_analysis_config_uri
    (c : ModelBiasCheckConfig) : SVal :=
  .monitoringAnalysisConfigUri c.data_config.s3_analysis_config_output_path

/-- The analysis-config file URI a `ModelExplainabilityCheckConfig` exposes. -/
def ModelExplainabilityCheckConfig.monitoring_analysis_config_uri
    (c : ModelExplainabilityCheckConfig) : SVal :=
  .monitoringAnalysisConfigUri c.data_config.s3_analysis_config_output_path

/-- The `clarify_check_config` argument of a `ClarifyCheckStep`. -/
inductive ClarifyCheckConfig
  | dataBias (c : DataBiasCheckConfig)
  | modelBias (c : ModelBiasCheckConfig)
  | modelExplainability (c : ModelExplainabilityCheckConfig)
deriving DecidableEq

/-- `sagemaker.workflow.clarify_check_step.ClarifyCheckStep`.  The data-bias
step does not pass `supplied_baseline_constraints`; the model-bias and
model-explainability steps do. -/
structure ClarifyCheckStep where
  name : String
  clarify_check_config : ClarifyCheckConfig
  check_job_config : CheckJobConfig
  skip_check : Parameter
  register_new_baseline : Parameter
  supplied_baseline_constraints : Option Parameter
  model_package_group_name : String
deriving DecidableEq

/-! ### AutoML, model creation and registration -/

/-- The `job_objective={"MetricName": ...}` dictionary. -/
structure AutoMLJobObjective where
  MetricName : String
deriving DecidableEq

/-- `sagemaker.AutoML(...)` with every keyword argument the source passes. -/
structure AutoML where
  role : String
  target_attribute_name : String
  output_kms_key : Option String
  output_path : String
  base_job_name : String
  compression_type : Option String
  volume_kms_key : Option String
  encrypt_inter_container_traffic : Option Bool
  vpc_config : Option String
  problem_type : String
  max_candidates : Nat
  max_runtime_per_training_job_in_seconds : Nat
  total_job_runtime_in_seconds : Nat
  job_objective : AutoMLJobObjective
  generate_candidate_definitions_only : Bool
  tags : Option (List Tag)
  content_type : String
  s3_data_type : String
  feature_specification_s3_uri : Option String
  validation_fraction : ℚ
  mode : String
  auto_generate_endpoint_name : String
  endpoint_name : String
  sample_weight_attribute_name : Option String
deriving DecidableEq

/-- `sagemaker.AutoMLInput(...)`. -/
structure AutoMLInput where
  inputs : SVal
  target_attribute_name : String
  compression : Option String
  channel_type : String
  content_type : String
  s3_data_type : String
  sample_weight_attribute_name : Option String
deriving DecidableEq

/-- The arguments of the `auto_ml.fit(...)` call. -/
structure AutoMLFitArgs where
  automl : AutoML
  inputs : List AutoMLInput
  wait : Bool
  logs : Bool
  job_name : String
deriving DecidableEq

/-- `sagemaker.workflow.automl_step.AutoMLStep`. -/
structure AutoMLStep where
  name : String
  step_args : AutoMLFitArgs
  depends_on : List String
deriving DecidableEq

/-- `step_automl.get_best_auto_ml_model(...)`: the symbolic best model of the
named AutoML step. -/
structure BestAutoMLModel where
  automl_step_name : String
  role : String
deriving DecidableEq

/-- The arguments of `best_auto_ml_model.create(instance_type=...)`. -/
structure ModelCreateArgs where
  model : BestAutoMLModel
  instance_type : String
deriving DecidableEq

/-- `sagemaker.model_metrics.MetricsSource(s3_uri=..., content_type=...)`. -/
structure MetricsSource where
  s3_uri : SVal
  content_type : String
deriving DecidableEq

/-- `sagemaker.model_metrics.FileSource(s3_uri=..., content_type=...)`. -/
structure FileSource where
  s3_uri : SVal
  content_type : String
deriving DecidableEq

/-- `sagemaker.model_metrics.ModelMetrics(...)`: the calculated-baseline
metrics bundle. -/
structure ModelMetrics where
  model_data_statistics : MetricsSource
  model_data_constraints : MetricsSource
  bias_pre_training : MetricsSource
  model_statistics : MetricsSource
  model_constraints : MetricsSource
  bias_post_training : MetricsSource
  bias : MetricsSource
  explainability : MetricsSource
deriving DecidableEq

/-- `sagemaker.drift_check_baselines.DriftCheckBaselines(...)`: the
drift-check-baseline metrics bundle. -/
structure DriftCheckBaselines where
  model_data_statistics : MetricsSource
  model_data_constraints : MetricsSource
  bias_pre_training_constraints : MetricsSource
  bias_config_file : FileSource
  model_statistics : MetricsSource
  model_constraints : MetricsSource
  bias_post_training_constraints : MetricsSource
  explainability_constraints : MetricsSource
  explainability_config_file : FileSource
deriving DecidableEq

/-- The arguments of `best_auto_ml_model.register(...)`. -/
structure RegisterArgs where
  model : BestAutoMLModel
  content_types : List String
  response_types : List String
  inference_instances : List String
  transform_instances : List String
  model_package_group_name : String
  approval_status : Parameter
  model_metrics : ModelMetrics
  drift_check_baselines : DriftCheckBaselines
deriving DecidableEq

/-- The `step_args` of a `ModelStep`: a model-create or register request. -/
inductive ModelStepArgs
  | create (a : ModelCreateArgs)
  | register (a : RegisterArgs)
deriving DecidableEq

/-- `sagemaker.workflow.model_step.ModelStep`. -/
structure ModelStep where
  name : String
  step_args : ModelStepArgs
deriving DecidableEq

/-! ### Batch transform -/

/-- `sagemaker.transformer.Transformer(...)`. -/
structure Transformer where
  model_name : SVal
  instance_type : String
  instance_count : Nat
  accept : String
  assemble_with : String
  output_path : String
deriving DecidableEq

/-- `sagemaker.inputs.TransformInput(data=...)`. -/
structure TransformInput where
  data : SVal
deriving DecidableEq

/-- The arguments of `transformer.transform(...)`. -/
structure TransformArgs where
  transformer : Transformer
  data : SVal
  input_filter : String
  join_source : String
  output_filter : String
  content_type : String
  split_type : String
deriving DecidableEq

/-- `sagemaker.workflow.steps.TransformStep`. -/
structure TransformStep where
  name : String
  step_args : TransformArgs
deriving DecidableEq

/-! ### Condition, steps and pipeline -/

/-- `JsonGet(step_name=..., property_file=..., json_path=...)`. -/
structure JsonGet where
  step_name : String
  property_file : PropertyFile
  json_path : String
deriving DecidableEq

/-- `ConditionGreaterThanOrEqualTo(left=..., right=...)`; the right operand is
the numeric threshold (`0.5` = `1/2`). -/
structure ConditionGreaterThanOrEqualTo where
  left : JsonGet
  right : ℚ
deriving DecidableEq

/-- A step of the pipeline.  A `cond` step carries its branch steps inline. -/
inductive Step
  | processing (s : ProcessingStep)
  | qualityCheck (s : QualityCheckStep)
  | clarifyCheck (s : ClarifyCheckStep)
  | autoML (s : AutoMLStep)
  | modelStep (s : ModelStep)
  | transform (s : TransformStep)
  | cond (name : String) (conditions : List ConditionGreaterThanOrEqualTo)
      (if_steps : List Step) (else_steps : List Step)

/-- The declared name of a step. -/
def Step.name : Step → String
  | .processing s => s.name
  | .qualityCheck s => s.name
  | .clarifyCheck s => s.name
  | .autoML s => s.name
  | .modelStep s => s.name
  | .transform s => s.name
  | .cond n _ _ _ => n

/-- Run-time semantics of a greater-or-equal condition, given the numeric
value the orchestration service resolves each `JsonGet` to. -/
def ConditionGreaterThanOrEqualTo.holds
    (c : ConditionGreaterThanOrEqualTo) (lookup : JsonGet → ℚ) : Bool :=
  decide (c.right ≤ lookup c.left)

/-- Run-time semantics of a condition step: the branch the orchestration
service executes, given resolved `JsonGet` values. -/
def condExecutedSteps (conditions : List ConditionGreaterThanOrEqualTo)
    (if_steps else_steps : List Step) (lookup : JsonGet → ℚ) : List Step :=
  if conditions.all (fun c => c.holds lookup) then if_steps else else_steps

/-- `sagemaker.workflow.pipeline.Pipeline(name=..., parameters=..., steps=...)`. -/
structure Pipeline where
  name : String
  parameters : List PipelineParam
  steps : List Step

/-! ### The builder (`get_pipeline` body, local by local) -/

def processing_instance_count : Parameter := .int "ProcessingInstanceCount" 1

def model_approval_status : Parameter :=
  .str "ModelApprovalStatus" "PendingManualApproval"

def input_data (c : Ctx) : Parameter :=
  .str "InputDataUrl" ("s3://" ++ c.default_bucket ++ "/dataset/state_DC.csv")

def skip_check_data_quality : Parameter := .bool "SkipDataQualityCheck" false

def register_new_baseline_data_quality : Parameter :=
  .bool "RegisterNewDataQualityBaseline" false

def supplied_baseline_statistics_data_quality : Parameter :=
  .str "DataQualitySuppliedStatistics" ""

def supplied_baseline_constraints_data_quality : Parameter :=
  .str "DataQualitySuppliedConstraints" ""

def skip_check_data_bias : Parameter := .bool "SkipDataBiasCheck" false

def register_new_baseline_data_bias : Parameter :=
  .bool "RegisterNewDataBiasBaseline" false

def supplied_baseline_constraints_data_bias : Parameter :=
  .str "DataBiasSuppliedBaselineConstraints" ""

def skip_check_model_quality : Parameter := .bool "SkipModelQualityCheck" false

def register_new_baseline_model_quality : Parameter :=
  .bool "RegisterNewModelQualityBaseline" false

def supplied_baseline_statistics_model_quality : Parameter :=
  .str "ModelQualitySuppliedStatistics" ""

def supplied_baseline_constraints_model_quality : Parameter :=
  .str "ModelQualitySuppliedConstraints" ""

def skip_check_model_bias : Parameter := .bool "SkipModelBiasCheck" false

def register_new_baseline_model_bias : Parameter :=
  .bool "RegisterNewModelBiasBaseline" false

def supplied_baseline_constraints_model_bias : Parameter :=
  .str "ModelBiasSuppliedBaselineConstraints" ""

def skip_check_model_explainability : Parameter :=
  .bool "SkipModelExplainabilityCheck" false

def register_new_baseline_model_explainability : Parameter :=
  .bool "RegisterNewModelExplainabilityBaseline" false

def supplied_baseline_constraints_model_explainability : Parameter :=
  .str "ModelExplainabilitySuppliedBaselineConstraints" ""

/-- The preprocess `SKLearnProcessor`. -/
def sklearn_processor (c : Ctx) : SKLearnProcessor :=
  { framework_version := "1.2-1"
    instance_type := c.processing_instance_type
    instance_count := processing_instance_count
    base_job_name := c.base_job_pfx ++ "/sklearn-hmda-preprocess"
    role := c.role }

/-- The preprocess `ProcessingStep`: `sklearn_processor.run` is called with
three outputs, the script, and command-line arguments, but no `inputs`. -/
def step_process (c : Ctx) : ProcessingStep :=
  { name := "PreprocessHMDAData"
    step_args :=
      { processor := sklearn_processor c
        inputs := []
        outputs :=
          [ { output_name := "train", source := "/opt/ml/processing/train" },
            { output_name := "train_no_header",
              source := "/opt/ml/processing/train_no_header" },
            { output_name := "test", source := "/opt/ml/processing/test" } ]
        code := c.base_dir ++ "/preprocess.py"
        arguments := [.lit "--input-data", .paramRef (input_data c)] }
    property_files := [] }

def check_job_config (c : Ctx) : CheckJobConfig :=
  { role := c.role
    instance_count := 1
    instance_type := "ml.t3.large"
    volume_size_in_gb := 30 }

def data_quality_check_config (c : Ctx) : DataQualityCheckConfig :=
  { baseline_dataset := .propRef (.processingOutput "PreprocessHMDAData" "train_no_header")
    dataset_format := { header := false, output_columns_position := some "START" }
    output_s3_uri := .join "/"
      [.lit "s3:/", .lit c.default_bucket, .lit c.base_job_pfx,
       .execVar "PIPELINE_EXECUTION_ID", .lit "dataqualitycheckstep"] }

def data_quality_check_step (c : Ctx) : QualityCheckStep :=
  { name := "DataQualityCheckStep"
    skip_check := skip_check_data_quality
    register_new_baseline := register_new_baseline_data_quality
    quality_check_config := .data (data_quality_check_config c)
    check_job_config := check_job_config c
    supplied_baseline_statistics := supplied_baseline_statistics_data_quality
    supplied_baseline_constraints := supplied_baseline_constraints_data_quality
    model_package_group_name := c.model_package_group_name }

def data_bias_analysis_cfg_output_path (c : Ctx) : String :=
  "s3://" ++ c.default_bucket ++ "/" ++ c.base_job_pfx ++ "/databiascheckstep/analysis_cfg"

def data_bias_data_config (c : Ctx) : DataConfig :=
  { s3_data_input_path := .propRef (.processingOutput "PreprocessHMDAData" "train_no_header")
    s3_output_path := .join "/"
      [.lit "s3:/", .lit c.default_bucket, .lit c.base_job_pfx,
       .execVar "PIPELINE_EXECUTION_ID", .lit "databiascheckstep"]
    s3_analysis_config_output_path := data_bias_analysis_cfg_output_path c
    label := "action_taken"
    headers :=
      ["action_taken", "conforming_loan_limit", "derived_sex", "preapproval",
       "loan_type", "loan_purpose", "lien_status", "reverse_mortgage",
       "open-end_line_of_credit", "business_or_commercial_purpose", "loan_amount",
       "loan_to_value_ratio", "loan_term", "negative_amortization",
       "interest_only_payment", "balloon_payment", "other_nonamortizing_features",
       "property_value", "construction_method", "occupancy_type", "total_units",
       "income", "debt_to_income_ratio", "derived_age_above_62",
       "derived_age_below_25", "derived_race_revisited", "if_co-applicant"]
    dataset_type := "text/csv" }

def data_bias_config : BiasConfig :=
  { label_values_or_threshold := [1]
    facet_name :=
      ["derived_sex", "derived_age_above_62", "derived_age_below_25",
       "derived_race_revisited", "if_co-applicant"] }

def data_bias_check_config (c : Ctx) : DataBiasCheckConfig :=
  { data_config := data_bias_data_config c
    data_bias_config := data_bias_config }

def data_bias_check_step (c : Ctx) : ClarifyCheckStep :=
  { name := "DataBiasCheckStep"
    clarify_check_config := .dataBias (data_bias_check_config c)
    check_job_config := check_job_config c
    skip_check := skip_check_data_bias
    register_new_baseline := register_new_baseline_data_bias
    supplied_baseline_constraints := none
    model_package_group_name := c.model_package_group_name }

def auto_ml (c : Ctx) : AutoML :=
  { role := c.role
    target_attribute_name := "action_taken"
    output_kms_key := none
    output_path := "s3://" ++ c.default_bucket ++ "/" ++ c.base_job_pfx ++ "/automlstep"
    base_job_name := c.base_job_pfx ++ "/automl"
    compression_type := none
    volume_kms_key := none
    encrypt_inter_container_traffic := none
    vpc_config := none
    problem_type := "BinaryClassification"
    max_candidates := 1
    max_runtime_per_training_job_in_seconds := 180
    total_job_runtime_in_seconds := 540
    job_objective := { MetricName := "F1" }
    generate_candidate_definitions_only := false
    tags := none
    content_type := "text/csv;header=present"
    s3_data_type := "S3Prefix"
    feature_specification_s3_uri := none
    validation_fraction := (1 : ℚ)/5
    mode := "ENSEMBLING"
    auto_generate_endpoint_name := "False"
    endpoint_name := "hmda_endpoint"
    sample_weight_attribute_name := none }

def input_training : AutoMLInput :=
  { inputs := .propRef (.processingOutput "PreprocessHMDAData" "train")
    target_attribute_name := "action_taken"
    compression := none
    channel_type := "training"
    content_type := "text/csv;header=present"
    s3_data_type := "S3Prefix"
    sample_weight_attribute_name := none }

def step_automl (c : Ctx) : AutoMLStep :=
  { name := "AutoMLStep"
    step_args :=
      { automl := auto_ml c
        inputs := [input_training]
        wait := true
        logs := true
        job_name := c.base_job_pfx ++ "/automl-fit" }
    depends_on := ["DataQualityCheckStep", "DataBiasCheckStep"] }

def best_auto_ml_model (c : Ctx) : BestAutoMLModel :=
  { automl_step_name := "AutoMLStep"
    role := c.role }

def step_create_model (c : Ctx) : ModelStep :=
  { name := "HMDACreateModel"
    step_args := .create
      { model := best_auto_ml_model c
        instance_type := "ml.m5.xlarge" } }

def transformer (c : Ctx) : Transformer :=
  { model_name := .propRef (.modelName "HMDACreateModel")
    instance_type := "ml.m5.xlarge"
    instance_count := 1
    accept := "text/csv"
    assemble_with := "Line"
    output_path := "s3://" ++ c.default_bucket ++ "/HMDATransform" }

def transform_inputs : TransformInput :=
  { data := .propRef (.processingOutput "PreprocessHMDAData" "test") }

def step_transform (c : Ctx) : TransformStep :=
  { name := "HMDATransform"
    step_args :=
      { transformer := transformer c
        data := transform_inputs.data
        input_filter := "$[1:]"
        join_source := "Input"
        output_filter := "$[0,-1]"
        content_type := "text/csv"
        split_type := "Line" } }

def model_quality_check_config (c : Ctx) : ModelQualityCheckConfig :=
  { baseline_dataset := .propRef (.transformOutputS3OutputPath "HMDATransform")
    dataset_format := { header := false, output_columns_position := none }
    output_s3_uri := .join "/"
      [.lit "s3:/", .lit c.default_bucket, .lit c.base_job_pfx,
       .execVar "PIPELINE_EXECUTION_ID", .lit "modelqualitycheckstep"]
    problem_type := "BinaryClassification"
    inference_attribute := "_c1"
    ground_truth_attribute := "_c0" }

def model_quality_check_step (c : Ctx) : QualityCheckStep :=
  { name := "ModelQualityCheckStep"
    skip_check := skip_check_model_quality
    register_new_baseline := register_new_baseline_model_quality
    quality_check_config := .model (model_quality_check_config c)
    check_job_config := check_job_config c
    supplied_baseline_statistics := supplied_baseline_statistics_model_quality
    supplied_baseline_constraints := supplied_baseline_constraints_model_quality
    model_package_group_name := c.model_package_group_name }

def model_bias_analysis_cfg_output_path (c : Ctx) : String :=
  "s3://" ++ c.default_bucket ++ "/" ++ c.base_job_pfx ++ "/modelbiascheckstep/analysis_cfg"

def model_bias_data_config (c : Ctx) : DataConfig :=
  { s3_data_input_path := .propRef (.processingOutput "PreprocessHMDAData" "train_no_header")
    s3_output_path := .join "/"
      [.lit "s3:/", .lit c.default_bucket, .lit c.base_job_pfx,
       .execVar "PIPELINE_EXECUTION_ID", .lit "modelbiascheckstep"]
    s3_analysis_config_output_path := model_bias_analysis_cfg_output_path c
    label := "action_taken"
    headers :=
      ["action_taken", "conforming_loan_limit", "derived_sex", "preapproval",
       "loan_type", "loan_purpose", "lien_status", "reverse_mortgage",
       "open-end_line_of_credit", "business_or_commercial_purpose", "loan_amount",
       "loan_to_value_ratio", "loan_term", "negative_amortization",
       "interest_only_payment", "balloon_payment", "other_nonamortizing_features",
       "property_value", "construction_method", "occupancy_type", "total_units",
       "income", "debt_to_income_ratio", "derived_age_above_62",
       "derived_age_below_25", "derived_race_revisited", "if_co-applicant"]
    dataset_type := "text/csv" }

def model_config : ModelConfig :=
  { model_name := .propRef (.modelName "HMDACreateModel")
    instance_count := 1
    instance_type := "ml.m5.large" }

def model_bias_config : BiasConfig :=
  { label_values_or_threshold := [1]
    facet_name :=
      ["derived_sex", "derived_age_above_62", "derived_age_below_25",
       "derived_race_revisited", "if_co-applicant"] }

def model_bias_check_config (c : Ctx) : ModelBiasCheckConfig :=
  { data_config := model_bias_data_config c
    data_bias_config := model_bias_config
    model_config := model_config
    model_predicted_label_config := {} }

def model_bias_check_step (c : Ctx) : ClarifyCheckStep :=
  { name := "ModelBiasCheckStep"
    clarify_check_config := .modelBias (model_bias_check_config c)
    check_job_config := check_job_config c
    skip_check := skip_check_model_bias
    register_new_baseline := register_new_baseline_model_bias
    supplied_baseline_constraints := some supplied_baseline_constraints_model_bias
    model_package_group_name := c.model_package_group_name }

def model_explainability_analysis_cfg_output_path (c : Ctx) : String :=
  "s3://" ++ c.default_bucket ++ "/" ++ c.base_job_pfx ++ "/modelexplainabilitycheckstep/analysis_cfg"

def model_explainability_data_config (c : Ctx) : DataConfig :=
  { s3_data_input_path := .propRef (.processingOutput "PreprocessHMDAData" "train_no_header")
    s3_output_path := .join "/"
      [.lit "s3:/", .lit c.default_bucket, .lit c.base_job_pfx,
       .execVar "PIPELINE_EXECUTION_ID", .lit "modelexplainabilitycheckstep"]
    s3_analysis_config_output_path := model_explainability_analysis_cfg_output_path c
    label := "action_taken"
    headers :=
      ["action_taken", "conforming_loan_limit", "derived_sex", "preapproval",
       "loan_type", "loan_purpose", "lien_status", "reverse_mortgage",
       "open-end_line_of_credit", "business_or_commercial_purpose", "loan_amount",
       "loan_to_value_ratio", "loan_term", "negative_amortization",
       "interest_only_payment", "balloon_payment", "other_nonamortizing_features",
       "property_value", "construction_method", "occupancy_type", "total_units",
       "income", "debt_to_income_ratio", "derived_age_above_62",
       "derived_age_below_25", "derived_race_revisited", "if_co-applicant"]
    dataset_type := "text/csv" }

def shap_config : SHAPConfig :=
  { seed := 123
    num_samples := 26
    num_clusters := 1 }

def model_explainability_check_config (c : Ctx) : ModelExplainabilityCheckConfig :=
  { data_config := model_explainability_data_config c
    model_config := model_config
    explainability_config := shap_config }

def model_explainability_check_step (c : Ctx) : ClarifyCheckStep :=
  { name := "ModelExplainabilityCheckStep"
    clarify_check_config := .modelExplainability (model_explainability_check_config c)
    check_job_config := check_job_config c
    skip_check := skip_check_model_explainability
    register_new_baseline := register_new_baseline_model_explainability
    supplied_baseline_constraints := some supplied_baseline_constraints_model_explainability
    model_package_group_name := c.model_package_group_name }

/-- The second `SKLearnProcessor` local (the evaluation one). -/
def sklearn_processor_evaluate (c : Ctx) : SKLearnProcessor :=
  { framework_version := "1.2-1"
    instance_type := c.processing_instance_type
    instance_count := processing_instance_count
    base_job_name := c.base_job_pfx ++ "/sklearn-hmda-evaluate"
    role := c.role }

def evaluation_report : PropertyFile :=
  { name := "HMDAEvaluationReport"
    output_name := "evaluation"
    path := "evaluation.json" }

def step_eval (c : Ctx) : ProcessingStep :=
  { name := "EvaluateHMDAModel"
    step_args :=
      { processor := sklearn_processor_evaluate c
        inputs :=
          [ { source := .propRef (.transformOutputS3OutputPath "HMDATransform")
              destination := "/opt/ml/processing/input/ground_truth_with_predictions" } ]
        outputs :=
          [ { output_name := "evaluation", source := "/opt/ml/processing/evaluation" } ]
        code := c.base_dir ++ "/evaluate.py"
        arguments := [] }
    property_files := [evaluation_report] }

def model_metrics : ModelMetrics :=
  { model_data_statistics :=
      { s3_uri := .propRef (.calculatedBaselineStatistics "DataQualityCheckStep")
        content_type := "application/json" }
    model_data_constraints :=
      { s3_uri := .propRef (.calculatedBaselineConstraints "DataQualityCheckStep")
        content_type := "application/json" }
    bias_pre_training :=
      { s3_uri := .propRef (.calculatedBaselineConstraints "DataBiasCheckStep")
        content_type := "application/json" }
    model_statistics :=
      { s3_uri := .propRef (.calculatedBaselineStatistics "ModelQualityCheckStep")
        content_type := "application/json" }
    model_constraints :=
      { s3_uri := .propRef (.calculatedBaselineConstraints "ModelQualityCheckStep")
        content_type := "application/json" }
    bias_post_training :=
      { s3_uri := .propRef (.calculatedBaselineConstraints "ModelBiasCheckStep")
        content_type := "application/json" }
    bias :=
      { s3_uri := .propRef (.calculatedBaselineConstraints "ModelBiasCheckStep")
        content_type := "application/json" }
    explainability :=
      { s3_uri := .propRef (.calculatedBaselineConstraints "ModelExplainabilityCheckStep")
        content_type := "application/json" } }

def drift_check_baselines (c : Ctx) : DriftCheckBaselines :=
  { model_data_statistics :=
      { s3_uri := .propRef (.baselineUsedForDriftCheckStatistics "DataQualityCheckStep")
        content_type := "application/json" }
    model_data_constraints :=
      { s3_uri := .propRef (.baselineUsedForDriftCheckConstraints "DataQualityCheckStep")
        content_type := "application/json" }
    bias_pre_training_constraints :=
      { s3_uri := .propRef (.baselineUsedForDriftCheckConstraints "DataBiasCheckStep")
        content_type := "application/json" }
    bias_config_file :=
      { s3_uri := (model_bias_check_config c).monitoring_analysis_config_uri
        content_type := "application/json" }
    model_statistics :=
      { s3_uri := .propRef (.baselineUsedForDriftCheckStatistics "ModelQualityCheckStep")
        content_type := "application/json" }
    model_constraints :=
      { s3_uri := .propRef (.baselineUsedForDriftCheckConstraints "ModelQualityCheckStep")
        content_type := "application/json" }
    bias_post_training_constraints :=
      { s3_uri := .propRef (.baselineUsedForDriftCheckConstraints "ModelBiasCheckStep")
        content_type := "application/json" }
    explainability_constraints :=
      { s3_uri := .propRef (.baselineUsedForDriftCheckConstraints "ModelExplainabilityCheckStep")
        content_type := "application/json" }
    explainability_config_file :=
      { s3_uri := (model_explainability_check_config c).monitoring_analysis_config_uri
        content_type := "application/json" } }

/-- The arguments of the `best_auto_ml_model.register(...)` call. -/
def step_register_args (c : Ctx) : RegisterArgs :=
  { model := best_auto_ml_model c
    content_types := ["text/csv"]
    response_types := ["text/csv"]
    inference_instances := ["ml.m5.xlarge"]
    transform_instances := ["ml.m5.xlarge"]
    model_package_group_name := c.model_package_group_name
    approval_status := model_approval_status
    model_metrics := model_metrics
    drift_check_baselines := drift_check_baselines c }

def step_register (c : Ctx) : ModelStep :=
  { name := "RegisterHMDAModel"
    step_args := .register (step_register_args c) }

def cond_lte : ConditionGreaterThanOrEqualTo :=
  { left :=
      { step_name := "EvaluateHMDAModel"
        property_file := evaluation_report
        json_path := "classification_metrics.weighted_f1.value" }
    right := (1 : ℚ)/2 }

def step_cond (c : Ctx) : Step :=
  .cond "CheckF1HMDAEvaluation" [cond_lte] [.modelStep (step_register c)] []

/-- The `Pipeline(...)` value assembled at the end of `get_pipeline`.  The
`parameters` list opens with the two plain instance-type strings the source
places directly in the list. -/
def pipelineOf (c : Ctx) : Pipeline :=
  { name := c.pipeline_name
    parameters :=
      [ .raw c.processing_instance_type,
        .param processing_instance_count,
        .raw c.training_instance_type,
        .param model_approval_status,
        .param (input_data c),
        .param skip_check_data_quality,
        .param register_new_baseline_data_quality,
        .param supplied_baseline_statistics_data_quality,
        .param supplied_baseline_constraints_data_quality,
        .param skip_check_data_bias,
        .param register_new_baseline_data_bias,
        .param supplied_baseline_constraints_data_bias,
        .param skip_check_model_quality,
        .param register_new_baseline_model_quality,
        .param supplied_baseline_statistics_model_quality,
        .param supplied_baseline_constraints_model_quality,
        .param skip_check_model_bias,
        .param register_new_baseline_model_bias,
        .param supplied_baseline_constraints_model_bias,
        .param skip_check_model_explainability,
        .param register_new_baseline_model_explainability,
        .param supplied_baseline_constraints_model_explainability ]
    steps :=
      [ .processing (step_process c),
        .qualityCheck (data_quality_check_step c),
        .clarifyCheck (data_bias_check_step c),
        .autoML (step_automl c),
        .modelStep (step_create_model c),
        .transform (step_transform c),
        .qualityCheck (model_quality_check_step c),
        .clarifyCheck (model_bias_check_step c),
        .clarifyCheck (model_explainability_check_step c),
        .processing (step_eval c),
        step_cond c ] }

/-- Resolve the `get_pipeline` arguments into a build context: the session's
bucket stands in for `sagemaker_session.default_bucket()` and the execution
role for `get_execution_role` when the caller passed `None`. -/
def mkCtx (env : Env) (role default_bucket : Option String)
    (model_package_group_name pipeline_name base_job_pfx_arg
     processing_instance_type training_instance_type : String) : Ctx :=
  { role := role.getD (get_execution_role env)
    default_bucket := Session.default_bucket env default_bucket
    model_package_group_name := model_package_group_name
    pipeline_name := pipeline_name
    base_job_pfx := base_job_pfx_arg
    processing_instance_type := processing_instance_type
    training_instance_type := training_instance_type
    base_dir := env.base_dir }

/-- `get_pipeline(region, role=None, default_bucket=None, ...)`.  The Python
defaults are `model_package_group_name="HMDAPackageGroup"`,
`pipeline_name="HMDAPipeline"`, `base_job_prefix="HMDA"`,
`processing_instance_type="ml.t3.large"`,
`training_instance_type="ml.m5.xlarge"`, `sagemaker_project_name=None`;
`region` and `sagemaker_project_name` are consumed only by the session
machinery, which the environment abstracts. -/
def get_pipeline (env : Env) (region : String)
    (role default_bucket : Option String)
    (model_package_group_name pipeline_name base_job_pfx_arg
     processing_instance_type training_instance_type : String)
    (sagemaker_project_name : Option String) : Pipeline :=
  pipelineOf (mkCtx env role default_bucket model_package_group_name
    pipeline_name base_job_pfx_arg processing_instance_type
    training_instance_type)

/-- `get_pipeline_custom_tags(new_tags, region, sagemaker_project_name)`.
The two fallible client calls (`describe_project`, `list_tags`) are passed in
as `Except`-valued functions; the `try`/`except` block of the source is the
outer `match`: any failure falls through to returning the supplied tags. -/
def get_pipeline_custom_tags
    (describe_project : Option String → Except String String)
    (list_tags : String → Except String (List Tag))
    (new_tags : List Tag) (region : String)
    (sagemaker_project_name : Option String) : List Tag :=
  match describe_project sagemaker_project_name with
  | .error _ => new_tags
  | .ok sagemaker_project_arn =>
    match list_tags sagemaker_project_arn with
    | .error _ => new_tags
    | .ok project_tags =>
      project_tags.foldl (fun acc project_tag => acc ++ [project_tag]) new_tags

/-! ### Helper observers used by the verification theorems -/

/-- The declared processing inputs of a step, when it is a processing step. -/
def Step.processingInputs : Step → Option (List ProcessingInput)
  | .processing s => some s.step_args.inputs
  | _ => none

/-- The Clarify check config of a step, when it is a Clarify check step. -/
def Step.clarifyConfig : Step → Option ClarifyCheckConfig
  | .clarifyCheck s => some s.clarify_check_config
  | _ => none

/-- All eight `MetricsSource` fields of the calculated-baseline bundle. -/
def ModelMetrics.metricsSources (m : ModelMetrics) : List MetricsSource :=
  [m.model_data_statistics, m.model_data_constraints, m.bias_pre_training,
   m.model_statistics, m.model_constraints, m.bias_post_training, m.bias,
   m.explainability]

/-- All seven `MetricsSource` fields of the drift-check-baseline bundle. -/
def DriftCheckBaselines.metricsSources (d : DriftCheckBaselines) : List MetricsSource :=
  [d.model_data_statistics, d.model_data_constraints,
   d.bias_pre_training_constraints, d.model_statistics, d.model_constraints,
   d.bias_post_training_constraints, d.explainability_constraints]

/-- The two `FileSource` fields of the drift-check-baseline bundle. -/
def DriftCheckBaselines.fileSources (d : DriftCheckBaselines) : List FileSource :=
  [d.bias_config_file, d.explainability_config_file]

/-- The names of the five check steps of the pipeline. -/
def checkStepNames : List String :=
  ["DataQualityCheckStep", "DataBiasCheckStep", "ModelQualityCheckStep",
   "ModelBiasCheckStep", "ModelExplainabilityCheckStep"]

/-- Whether a string-valued expression is a calculated-baseline or
drift-check-baseline property of one of the five check steps. -/
def isBaselineRefOfCheckStep : SVal → Bool
  | .propRef (.calculatedBaselineStatistics s) => checkStepNames.contains s
  | .propRef (.calculatedBaselineConstraints s) => checkStepNames.contains s
  | .propRef (.baselineUsedForDriftCheckStatistics s) => checkStepNames.contains s
  | .propRef (.baselineUsedForDriftCheckConstraints s) => checkStepNames.contains s
  | _ => false

/-- The register-step arguments carried inside the if-branch of the pipeline's
condition step (the eleventh step), when they have that shape. -/
def Pipeline.registerArgsOfCond (p : Pipeline) : Option RegisterArgs :=
  match p.steps.get? 10 with
  | some (.cond _ _ [.modelStep ⟨_, .register ra⟩] _) => some ra
  | _ => none

/-- Appending elements of `l` one by one (the source's `for`-loop over
`new_tags.append`) equals a single list append. -/
theorem foldl_append_eq_append (l acc : List Tag) :
    l.foldl (fun a t => a ++ [t]) acc = acc ++ l := by
  induction l generalizing acc with
  | nil => simp
  | cons x xs ih => simp [ih]

/-- A concrete environment used by the counterexample theorems. -/
def env0 : Env :=
  { platformDefaultBucket := "sagemaker-us-east-1-000000000000"
    executionRole := "arn:aws:iam::000000000000:role/SageMakerExecution"
    base_dir := "/opt/pipelines/hmda" }

/-- The build context of `get_pipeline` at the Python default arguments, over
the concrete environment `env0`. -/
def ctx0 : Ctx :=
  mkCtx env0 none none "HMDAPackageGroup" "HMDAPipeline" "HMDA" "ml.t3.large"
    "ml.m5.xlarge"

/-! ### Claim theorems -/

/-- C9: for all valid parameter combinations, the pipeline returned by
`get_pipeline` contains exactly one step per declared stage — eleven steps in
total, in the source's list order — and the step names are pairwise
distinct. -/
theorem pipeline_has_eleven_uniquely_named_steps (env : Env) (region : String)
    (role default_bucket : Option String) (mpg pn bjp pit tit : String)
    (spn : Option String) :
    (get_pipeline env region role default_bucket mpg pn bjp pit tit spn).steps.map Step.name
      = ["PreprocessHMDAData", "DataQualityCheckStep", "DataBiasCheckStep",
         "AutoMLStep", "HMDACreateModel", "HMDATransform",
         "ModelQualityCheckStep", "ModelBiasCheckStep",
         "ModelExplainabilityCheckStep", "EvaluateHMDAModel",
         "CheckF1HMDAEvaluation"]
    ∧ ((get_pipeline env region role default_bucket mpg pn bjp pit tit spn).steps.map Step.name).Nodup
    ∧ (get_pipeline env region role default_bucket mpg pn bjp pit tit spn).steps.length = 11 := by
  have h : (get_pipeline env region role default_bucket mpg pn bjp pit tit spn).steps.map Step.name
      = ["PreprocessHMDAData", "DataQualityCheckStep", "DataBiasCheckStep",
         "AutoMLStep", "HMDACreateModel", "HMDATransform",
         "ModelQualityCheckStep", "ModelBiasCheckStep",
         "ModelExplainabilityCheckStep", "EvaluateHMDAModel",
         "CheckF1HMDAEvaluation"] := rfl
  refine ⟨h, ?_, rfl⟩
  rw [h]
  decide

/-- C10: for every call of `get_pipeline`, the pipeline's parameter list
contains the `processing_instance_type` and `training_instance_type` arguments
themselves as plain strings (not declared `Parameter` objects) — at positions
0 and 2 of the list — and the steps of the pipeline do not depend on the
`training_instance_type` value at all. -/
theorem instance_type_arguments_are_raw_strings (env : Env) (region : String)
    (role default_bucket : Option String) (mpg pn bjp pit tit tit2 : String)
    (spn : Option String) :
    (get_pipeline env region role default_bucket mpg pn bjp pit tit spn).parameters.get? 0
        = some (.raw pit)
    ∧ (get_pipeline env region role default_bucket mpg pn bjp pit tit spn).parameters.get? 2
        = some (.raw tit)
    ∧ (get_pipeline env region role default_bucket mpg pn bjp pit tit spn).steps
        = (get_pipeline env region role default_bucket mpg pn bjp pit tit2 spn).steps :=
  ⟨rfl, rfl, rfl⟩

/-- C5: only `region` is required; a `None` role resolves to the execution
identity obtained from the execution environment via the session, and a `None`
bucket resolves to the session's platform-default bucket, before any step is
built — the resulting pipeline is identical to the one built with the
resolved values passed explicitly. -/
theorem none_role_and_bucket_resolve_to_session_defaults (env : Env)
    (region : String) (mpg pn bjp pit tit : String) (spn : Option String) :
    get_pipeline env region none none mpg pn bjp pit tit spn
      = get_pipeline env region (some (get_execution_role env))
          (some env.platformDefaultBucket) mpg pn bjp pit tit spn
    ∧ (∀ b : String,
        get_pipeline env region none (some b) mpg pn bjp pit tit spn
          = get_pipeline env region (some (get_execution_role env)) (some b)
              mpg pn bjp pit tit spn)
    ∧ (∀ r : String,
        get_pipeline env region (some r) none mpg pn bjp pit tit spn
          = get_pipeline env region (some r) (some env.platformDefaultBucket)
              mpg pn bjp pit tit spn)
    ∧ Session.default_bucket env none = env.platformDefaultBucket :=
  ⟨rfl, fun _ => rfl, fun _ => rfl, rfl⟩

/-- C1: in every pipeline returned by `get_pipeline`, the conditional step
compares the evaluation-report field at JSON path
`classification_metrics.weighted_f1.value` against the fixed threshold `0.5`
with a greater-than-or-equal comparison, its else branch is empty, and —
for any value the orchestration service resolves the report field to — the
registration step executes iff the comparison holds. -/
theorem condition_gates_registration_at_half (env : Env) (region : String)
    (role default_bucket : Option String) (mpg pn bjp pit tit : String)
    (spn : Option String) (lookup : JsonGet → ℚ) :
    ∃ ifs : List Step,
      (get_pipeline env region role default_bucket mpg pn bjp pit tit spn).steps.get? 10
        = some (.cond "CheckF1HMDAEvaluation" [cond_lte] ifs [])
      ∧ cond_lte.left.step_name = "EvaluateHMDAModel"
      ∧ cond_lte.left.json_path = "classification_metrics.weighted_f1.value"
      ∧ cond_lte.right = (1 : ℚ)/2
      ∧ ifs.map Step.name = ["RegisterHMDAModel"]
      ∧ (("RegisterHMDAModel" ∈ (condExecutedSteps [cond_lte] ifs [] lookup).map Step.name)
          ↔ (1 : ℚ)/2 ≤ lookup cond_lte.left) := by
  refine ⟨[.modelStep (step_register
      (mkCtx env role default_bucket mpg pn bjp pit tit))],
    rfl, rfl, rfl, rfl, rfl, ?_⟩
  have hpos : ∀ I : List Step, cond_lte.right ≤ lookup cond_lte.left →
      condExecutedSteps [cond_lte] I [] lookup = I := by
    intro I h
    simp [condExecutedSteps, ConditionGreaterThanOrEqualTo.holds, h]
  have hneg : ∀ I : List Step, ¬ cond_lte.right ≤ lookup cond_lte.left →
      condExecutedSteps [cond_lte] I [] lookup = [] := by
    intro I h
    simp [condExecutedSteps, ConditionGreaterThanOrEqualTo.holds, h]
  by_cases h : cond_lte.right ≤ lookup cond_lte.left
  · rw [hpos _ h]
    exact iff_of_true (List.Mem.head _) h
  · rw [hneg _ h]
    exact iff_of_false (by simp) h

/-- C3: in every pipeline returned by `get_pipeline`, the batch-transform
step applies the created model (the model-creation step named
`HMDACreateModel`) to the preprocess step's `test` output, drops the first
input column (`$[1:]`), keeps only the predicted and last columns
(`$[0,-1]`), and joins input and prediction line-delimited (`split_type` and
`assemble_with` both `Line`, join source `Input`). -/
theorem transform_step_filters_and_joins (env : Env) (region : String)
    (role default_bucket : Option String) (mpg pn bjp pit tit : String)
    (spn : Option String) :
    ∃ (ms : ModelStep) (ts : TransformStep),
      (get_pipeline env region role default_bucket mpg pn bjp pit tit spn).steps.get? 4
        = some (.modelStep ms)
      ∧ ms.name = "HMDACreateModel"
      ∧ (get_pipeline env region role default_bucket mpg pn bjp pit tit spn).steps.get? 5
        = some (.transform ts)
      ∧ ts.step_args.transformer.model_name = .propRef (.modelName "HMDACreateModel")
      ∧ ts.step_args.data = .propRef (.processingOutput "PreprocessHMDAData" "test")
      ∧ ts.step_args.input_filter = "$[1:]"
      ∧ ts.step_args.output_filter = "$[0,-1]"
      ∧ ts.step_args.split_type = "Line"
      ∧ ts.step_args.transformer.assemble_with = "Line"
      ∧ ts.step_args.join_source = "Input" :=
  ⟨step_create_model (mkCtx env role default_bucket mpg pn bjp pit tit),
   step_transform (mkCtx env role default_bucket mpg pn bjp pit tit),
   rfl, rfl, rfl, rfl, rfl, rfl, rfl, rfl, rfl, rfl⟩

/-- C4: in every pipeline returned by `get_pipeline`, the automated-model-
search step lists exactly `DataQualityCheckStep` and `DataBiasCheckStep` as
explicit dependencies, its training input is the symbolic reference to the
preprocess step's `train` output, and its configuration declares a maximum
candidate count (1), a per-training-job time budget (180 s), a total job time
budget (540 s), the objective metric `F1`, and `ENSEMBLING` mode. -/
theorem automl_step_dependencies_and_search_bounds (env : Env) (region : String)
    (role default_bucket : Option String) (mpg pn bjp pit tit : String)
    (spn : Option String) :
    ∃ a : AutoMLStep,
      (get_pipeline env region role default_bucket mpg pn bjp pit tit spn).steps.get? 3
        = some (.autoML a)
      ∧ a.depends_on = ["DataQualityCheckStep", "DataBiasCheckStep"]
      ∧ a.step_args.inputs.map AutoMLInput.inputs
          = [.propRef (.processingOutput "PreprocessHMDAData" "train")]
      ∧ a.step_args.automl.max_candidates = 1
      ∧ a.step_args.automl.max_runtime_per_training_job_in_seconds = 180
      ∧ a.step_args.automl.total_job_runtime_in_seconds = 540
      ∧ a.step_args.automl.job_objective = { MetricName := "F1" }
      ∧ a.step_args.automl.mode = "ENSEMBLING" :=
  ⟨step_automl (mkCtx env role default_bucket mpg pn bjp pit tit),
   rfl, rfl, rfl, rfl, rfl, rfl, rfl, rfl⟩

/-- C2: every `MetricsSource` field of the two metrics bundles attached by the
registration step is a `CalculatedBaseline*` or `BaselineUsedForDriftCheck*`
property of one of the five check steps (data-quality, data-bias,
model-quality, model-bias, model-explainability); the only non-MetricsSource
fields are the two analysis-config `FileSource`s of the model-bias and
model-explainability check configs; the evaluation step contributes no field
to either bundle (so both sides of the claim's trailing biconditional are
false). -/
theorem metrics_bundles_draw_only_from_check_steps (env : Env) (region : String)
    (role default_bucket : Option String) (mpg pn bjp pit tit : String)
    (spn : Option String) :
    ∃ ra : RegisterArgs,
      (get_pipeline env region role default_bucket mpg pn bjp pit tit spn).registerArgsOfCond
        = some ra
      ∧ (ra.model_metrics.metricsSources ++ ra.drift_check_baselines.metricsSources).all
          (fun ms => isBaselineRefOfCheckStep ms.s3_uri)
      ∧ ra.drift_check_baselines.fileSources.map FileSource.s3_uri
          = [.monitoringAnalysisConfigUri (model_bias_analysis_cfg_output_path
               (mkCtx env role default_bucket mpg pn bjp pit tit)),
             .monitoringAnalysisConfigUri (model_explainability_analysis_cfg_output_path
               (mkCtx env role default_bucket mpg pn bjp pit tit))]
      ∧ (ra.model_metrics.metricsSources ++ ra.drift_check_baselines.metricsSources).all
          (fun ms => ms.s3_uri.refStep != some "EvaluateHMDAModel")
      ∧ ra.drift_check_baselines.fileSources.all
          (fun fs => fs.s3_uri.refStep != some "EvaluateHMDAModel") :=
  ⟨step_register_args (mkCtx env role default_bucket mpg pn bjp pit tit),
   rfl, rfl, rfl, rfl, rfl⟩

/-- C6 counterexample: at a concrete call of `get_pipeline`, the preprocess
step declares no processing input at all, refuting "declared with one input";
the raw-data location parameter travels in the job's command-line arguments
instead. -/
theorem preprocess_declares_no_processing_input :
    ¬ ∃ inp : ProcessingInput,
      ((get_pipeline env0 "us-east-1" none none "HMDAPackageGroup"
          "HMDAPipeline" "HMDA" "ml.t3.large" "ml.m5.xlarge" none).steps.get? 0).bind
        Step.processingInputs = some [inp] := by
  rintro ⟨inp, h⟩
  have h2 : some ([] : List ProcessingInput) = some [inp] := h
  simp at h2

/-- C6 (amended): for every call of `get_pipeline`, the preprocess step is a
scripted processing job declared with an empty processing-input list — the
raw-data location parameter is passed via the command-line arguments
`["--input-data", InputDataUrl]` — and exactly three named outputs `train`,
`train_no_header` and `test`. -/
theorem preprocess_outputs_and_cli_input (env : Env) (region : String)
    (role default_bucket : Option String) (mpg pn bjp pit tit : String)
    (spn : Option String) :
    ∃ sp : ProcessingStep,
      (get_pipeline env region role default_bucket mpg pn bjp pit tit spn).steps.get? 0
        = some (.processing sp)
      ∧ sp.name = "PreprocessHMDAData"
      ∧ sp.step_args.inputs = []
      ∧ sp.step_args.arguments
          = [.lit "--input-data",
             .paramRef (input_data (mkCtx env role default_bucket mpg pn bjp pit tit))]
      ∧ (input_data (mkCtx env role default_bucket mpg pn bjp pit tit)).name
          = "InputDataUrl"
      ∧ sp.step_args.outputs.map ProcessingOutput.output_name
          = ["train", "train_no_header", "test"] :=
  ⟨step_process (mkCtx env role default_bucket mpg pn bjp pit tit),
   rfl, rfl, rfl, rfl, rfl, rfl⟩

/-- C7 counterexample: at a concrete call, the model-bias and data-bias check
configurations differ beyond the additional model fields: their data configs
point at different step-specific output and analysis-config locations, so
"differing only in that the model-bias check additionally names the created
model and its predicted-label configuration" is false. -/
theorem bias_check_config_paths_differ :
    (model_bias_check_config ctx0).data_config.s3_analysis_config_output_path
        ≠ (data_bias_check_config ctx0).data_config.s3_analysis_config_output_path
    ∧ (model_bias_check_config ctx0).data_config.s3_output_path
        ≠ (data_bias_check_config ctx0).data_config.s3_output_path :=
  ⟨by decide, by decide⟩

/-- C7 (amended): in every pipeline returned by `get_pipeline`, the
model-bias check configuration mirrors the data-bias check configuration in
label column (`action_taken`), ordered header list, facet-column list and
label threshold (the whole `BiasConfig` coincides, as does the dataset type),
and additionally names the created model and a predicted-label configuration;
the two data configs' step-specific output and analysis-config paths are not
equal. -/
theorem model_bias_mirrors_data_bias_config (env : Env) (region : String)
    (role default_bucket : Option String) (mpg pn bjp pit tit : String)
    (spn : Option String) :
    ∃ dbs mbs : ClarifyCheckStep,
      (get_pipeline env region role default_bucket mpg pn bjp pit tit spn).steps.get? 2
        = some (.clarifyCheck dbs)
      ∧ (get_pipeline env region role default_bucket mpg pn bjp pit tit spn).steps.get? 7
        = some (.clarifyCheck mbs)
      ∧ match dbs.clarify_check_config, mbs.clarify_check_config with
        | .dataBias dcfg, .modelBias mcfg =>
            mcfg.data_config.label = dcfg.data_config.label
            ∧ dcfg.data_config.label = "action_taken"
            ∧ mcfg.data_config.headers = dcfg.data_config.headers
            ∧ mcfg.data_bias_config = dcfg.data_bias_config
            ∧ mcfg.data_config.dataset_type = dcfg.data_config.dataset_type
            ∧ mcfg.model_config.model_name = .propRef (.modelName "HMDACreateModel")
            ∧ mcfg.model_predicted_label_config = {}
        | _, _ => False := by
  refine ⟨data_bias_check_step (mkCtx env role default_bucket mpg pn bjp pit tit),
    model_bias_check_step (mkCtx env role default_bucket mpg pn bjp pit tit),
    rfl, rfl, ?_⟩
  exact ⟨rfl, rfl, rfl, rfl, rfl, rfl, rfl⟩

/-- C8: `get_pipeline_custom_tags` never raises, whatever the project lookup
and tag listing do: it returns the supplied tags extended with the fetched
project tags on success, and exactly the supplied tags when either external
call fails. -/
theorem custom_tags_degrade_gracefully
    (describe_project : Option String → Except String String)
    (list_tags : String → Except String (List Tag))
    (new_tags : List Tag) (region : String) (spn : Option String) :
    get_pipeline_custom_tags describe_project list_tags new_tags region spn
      = new_tags ++
        (match describe_project spn with
         | .error _ => []
         | .ok arn =>
           match list_tags arn with
           | .error _ => []
           | .ok project_tags => project_tags) := by
  unfold get_pipeline_custom_tags
  rcases h1 : describe_project spn with e1 | arn
  · simp
  · rcases h2 : list_tags arn with e2 | project_tags
    · simp [h2]
    · simp [h2, foldl_append_eq_append]

end HMDA
